import Mathlib

/-!
Shallow embedding of the transaction Evaluator/Optimizer core of the LARPy
repository (`src/evaluator/validation_rules.py`, `evaluator.py`,
`subagents.py`, `optimizer.py`) together with proofs about the claims on it.

Modelling conventions:
* Python dict values appearing in transactions are embedded as `TxVal`
  (string / int / bool); a transaction is an association list `TxDict`
  preserving insertion order, like a Python dict.
* Fallible Python operations (`int(...)`, `len(...)`, `.lower()`, division
  by zero, `bytes.fromhex`) are embedded in `Except String`; an exception
  propagating out of a function is an `Except.error`.
* Python `Decimal` division under the default context (28 significant
  digits, `ROUND_HALF_EVEN`) is embedded exactly by `decimal_div`.
* Python `float` multiplications by 1.5, 0.75, 1.25 and 0.5 of machine
  integers are embedded by the exact integer computations they perform for
  all magnitudes below 2^51 (3/4, 3/2, 5/4, 1/2 are exact binary floats, so
  the product is exactly representable there); the claims under study stay
  far below that range.
-/

namespace LARPy

/-! ### Generic string / list helpers (Python `in`, `startswith`, slicing) -/

/-- Does the second list start with the first one? -/
def starts_with_chars : List Char → List Char → Bool
  | [], _ => true
  | _ :: _, [] => false
  | p :: ps, c :: cs => p == c && starts_with_chars ps cs

/-- Is `pat` a contiguous sublist of the second argument? -/
def has_sub_chars (pat : List Char) : List Char → Bool
  | [] => pat.isEmpty
  | c :: cs => starts_with_chars pat (c :: cs) || has_sub_chars pat cs

/-- Python `pat in s` on strings (substring containment). -/
def py_in (pat s : String) : Bool := has_sub_chars pat.data s.data

/-- Python `s.startswith(pat)`. -/
def py_startswith (s pat : String) : Bool := starts_with_chars pat.data s.data

/-- Python `s[:n]` for a nonnegative slice bound. -/
def str_take (s : String) (n : Nat) : String := ⟨s.data.take n⟩

/-- Python `s.lower()` (restricted to ASCII, which covers all inputs of the
claims and of the repository's own string constants). -/
def str_lower (s : String) : String := ⟨s.data.map Char.toLower⟩

/-! ### Python scalar values (`TxVal`) and dicts (`TxDict`) -/

/-- Scalar value stored in a transaction dict: Python `str`, `int` or `bool`. -/
inductive TxVal where
  | s (v : String)
  | i (v : Int)
  | b (v : Bool)
deriving Repr, DecidableEq

/-- A Python dict with string keys, as an insertion-ordered association list. -/
abbrev TxDict := List (String × TxVal)

/-- First value bound to `key`, if any (Python `d[key]` / `d.get(key)`). -/
def dict_find : TxDict → String → Option TxVal
  | [], _ => none
  | (k, v) :: rest, key => if k = key then some v else dict_find rest key

/-- Python `d.get(key, dflt)`. -/
def dict_get (d : TxDict) (key : String) (dflt : TxVal) : TxVal :=
  (dict_find d key).getD dflt

/-- Python `key in d`. -/
def dict_mem (d : TxDict) (key : String) : Bool := (dict_find d key).isSome

/-- Python `d[key] = v`: overwrite in place, else append (insertion order). -/
def dict_set : TxDict → String → TxVal → TxDict
  | [], key, v => [(key, v)]
  | (k, w) :: rest, key, v =>
    if k = key then (k, v) :: rest else (k, w) :: dict_set rest key v

/-- Python `d.update(other)`. -/
def dict_update (d other : TxDict) : TxDict :=
  other.foldl (fun acc kv => dict_set acc kv.1 kv.2) d

/-- Python `str(v)`. -/
def py_str : TxVal → String
  | .s v => v
  | .i v => toString v
  | .b v => if v then "True" else "False"

/-- Python `len(v)`: defined on strings only among our scalars. -/
def py_len : TxVal → Except String Nat
  | .s v => .ok v.data.length
  | _ => .error "TypeError: object of this type has no len()"

/-- Decimal digit of a character, if any (code points 48-57). -/
def digit_val (c : Char) : Option Nat :=
  let n := c.toNat
  if 48 ≤ n && n ≤ 57 then some (n - 48) else none

/-- Accumulate a nonempty all-digit character list into a Nat. -/
def digits_to_nat : Nat → List Char → Option Nat
  | acc, [] => some acc
  | acc, c :: cs =>
    match digit_val c with
    | some d => digits_to_nat (10 * acc + d) cs
    | none => none

/-- Python `int(s)` on a string: optional sign followed by decimal digits
(whitespace/underscore forms are outside the shapes used here). -/
def str_to_int (v : String) : Except String Int :=
  let err : Except String Int :=
    .error ("ValueError: invalid literal for int() with base 10: " ++ v)
  match v.data with
  | '-' :: c :: cs =>
    match digits_to_nat 0 (c :: cs) with
    | some n => .ok (-(n : Int))
    | none => err
  | '+' :: c :: cs =>
    match digits_to_nat 0 (c :: cs) with
    | some n => .ok (n : Int)
    | none => err
  | c :: cs =>
    match digits_to_nat 0 (c :: cs) with
    | some n => .ok (n : Int)
    | none => err
  | [] => err

/-- Python `int(v)` on a scalar. -/
def py_int : TxVal → Except String Int
  | .i v => .ok v
  | .b v => .ok (if v then 1 else 0)
  | .s v => str_to_int v

/-- Python `v.lower()` on a scalar (strings only). -/
def py_lower : TxVal → Except String String
  | .s v => .ok (str_lower v)
  | _ => .error "AttributeError: object has no attribute lower"

/-! ### Decimal arithmetic (Python `decimal` default context)

Python's `Decimal` division rounds the exact quotient to 28 significant
digits with `ROUND_HALF_EVEN`; construction from `int` and multiplication
by 100 are exact.  `decimal_div` reproduces the numeric value of
`Decimal(p) / Decimal(q)` for integer operands and `q ≠ 0`. -/

/-- Round `num / den` (with `den > 0`) to the nearest integer, ties to even. -/
def round_he_div (num den : Nat) : Nat :=
  let q := num / den
  let r := num % den
  if 2 * r < den then q
  else if den < 2 * r then q + 1
  else if q % 2 = 0 then q else q + 1

/-- Round `a / b * 10 ^ m` to the nearest integer, ties to even. -/
def scaled_round (a b : Nat) (m : Int) : Nat :=
  if 0 ≤ m then round_he_div (a * 10 ^ m.toNat) b
  else round_he_div a (b * 10 ^ (-m).toNat)

/-- Number of decimal digits of `n` (1 for `0`). -/
def digit_count (n : Nat) : Nat := (Nat.toDigits 10 n).length

/-- Signed coefficient and decimal exponent of
`Decimal(p) / Decimal(q)` under the default context: the value is
`coefficient * 10 ^ (-exponent)`.  Pure integer arithmetic, so concrete
instances evaluate by `decide`. -/
def decimal_div_core (p q : Int) : Int × Int :=
  if p = 0 then (0, 0)
  else
    let sgn : Int := if (p < 0) = (q < 0) then 1 else -1
    let a := p.natAbs
    let b := q.natAbs
    let m0 : Int := 28 - (digit_count a : Int) + (digit_count b : Int)
    let n0 := scaled_round a b m0
    let nm : Nat × Int :=
      if 10 ^ 28 ≤ n0 then (scaled_round a b (m0 - 1), m0 - 1)
      else if n0 < 10 ^ 27 then (scaled_round a b (m0 + 1), m0 + 1)
      else (n0, m0)
    (sgn * (nm.1 : Int), nm.2)

/-- Numeric value of `Decimal(p) / Decimal(q)` under the default context:
the exact quotient rounded half-even to 28 significant digits. -/
def decimal_div (p q : Int) : Rat :=
  let c := decimal_div_core p q
  if 0 ≤ c.2 then ((c.1 : Rat)) / (((10 : Nat) ^ c.2.toNat : Nat) : Rat)
  else ((c.1 : Rat)) * (((10 : Nat) ^ (-c.2).toNat : Nat) : Rat)

/-- Round a rational to the nearest integer, ties to even (sign-symmetric,
matching `ROUND_HALF_EVEN`). -/
def round_he_rat (x : Rat) : Int :=
  if 0 ≤ x.num then (round_he_div x.num.toNat x.den : Int)
  else -((round_he_div (-x.num).toNat x.den : Int))

/-- Two-digit zero-padded rendering. -/
def pad2 (n : Nat) : String := if n < 10 then "0" ++ toString n else toString n

/-- Formatting `f"{d:.2f}"` of a `Decimal` value (exact half-even rounding to
two decimal places). -/
def fmt_2f (x : Rat) : String :=
  let c := round_he_rat (x * 100)
  let sgn := if c < 0 then "-" else ""
  let a := c.natAbs
  sgn ++ toString (a / 100) ++ "." ++ pad2 (a % 100)

/-- Three-digit zero-padded rendering. -/
def pad3 (n : Nat) : String :=
  if n < 10 then "00" ++ toString n
  else if n < 100 then "0" ++ toString n
  else toString n

/-- Formatting `f"{x:.3f}"` of a float value, embedded as exact half-even
rounding of the rational to three decimals (float rounding can differ on
values within a float ulp of a midpoint; no claim depends on that). -/
def fmt_3f (x : Rat) : String :=
  let c := round_he_rat (x * 1000)
  let sgn := if c < 0 then "-" else ""
  let a := c.natAbs
  sgn ++ toString (a / 1000) ++ "." ++ pad3 (a % 1000)

/-! ### `validation_rules.py` -/

/-- Result of a validation check (`ValidationResult` dataclass). -/
structure ValidationResult where
  passed : Bool
  category : String
  message : String
  severity : String
  optimization_tip : Option String
deriving Repr, DecidableEq

/-- Gas thresholds for different transaction types (`GasThresholds`). -/
structure GasThresholds where
  eth_transfer : Int
  erc20_transfer : Int
  simple_swap : Int
  complex_swap : Int
  multi_hop_swap : Int
deriving Repr

/-- The default-constructed `GasThresholds()`. -/
def gas_thresholds : GasThresholds := ⟨21000, 65000, 150000, 300000, 500000⟩

/-- Security validation rules (`SecurityRules`). -/
structure SecurityRules where
  max_slippage_percent : Rat
  require_simulation : Bool
  max_value_without_confirmation : Int
  allowed_protocols : List String
deriving Repr

/-- The default-constructed `SecurityRules()` after `__post_init__`. -/
def security_rules : SecurityRules :=
  ⟨2, true, 10 ^ 18, ["uniswap_v3", "sushiswap", "curve", "balancer", "1inch"]⟩

/-- String form of `SecurityRules.max_slippage_percent` in f-strings
(`Decimal("2.0")` prints as `2.0`). -/
def max_slippage_str : String := "2.0"

/-- Efficiency validation rules (`EfficiencyRules`). -/
structure EfficiencyRules where
  max_price_impact_percent : Rat
  min_output_ratio : Rat
  prefer_direct_paths : Bool
  max_hops : Int
deriving Repr

/-- The default-constructed `EfficiencyRules()`. -/
def efficiency_rules : EfficiencyRules := ⟨1, 98 / 100, true, 3⟩

/-- Gas ceiling for a transaction type (`threshold_map.get` with
`complex_swap` as the default for unknown types). -/
def gas_threshold_for (tx_type : String) : Int :=
  if tx_type = "eth_transfer" then gas_thresholds.eth_transfer
  else if tx_type = "erc20_transfer" then gas_thresholds.erc20_transfer
  else if tx_type = "simple_swap" then gas_thresholds.simple_swap
  else if tx_type = "complex_swap" then gas_thresholds.complex_swap
  else if tx_type = "multi_hop_swap" then gas_thresholds.multi_hop_swap
  else gas_thresholds.complex_swap

/-- Python `v > t * 1.5` for a dict scalar `v` and int `t` (the float
product `t * 1.5` is exact for the magnitudes involved, so the comparison
is the exact `2*v > 3*t`; comparing a `str` with a float raises). -/
def py_gt_mul_3_2 : TxVal → Int → Except String Bool
  | .i v, t => .ok (decide (3 * t < 2 * v))
  | .b v, t => .ok (decide (3 * t < 2 * (if v then 1 else 0)))
  | .s _, _ => .error "TypeError: unorderable types str > float"

/-- `ValidationRuleEngine.validate_gas`. -/
def validate_gas (tx_data : TxDict) (tx_type : String) :
    Except String ValidationResult := do
  let gas_limit := dict_get tx_data "gas" (.i 0)
  let threshold := gas_threshold_for tx_type
  let exceeds ← py_gt_mul_3_2 gas_limit threshold
  if exceeds then
    pure ⟨false, "gas",
      "Gas limit " ++ py_str gas_limit ++ " exceeds threshold " ++
        toString threshold ++ " by >50%",
      "warning",
      some ("Consider optimizing transaction path or splitting into smaller transactions. Target gas: "
        ++ toString threshold)⟩
  else
    pure ⟨true, "gas",
      "Gas limit " ++ py_str gas_limit ++ " is within acceptable range",
      "info", none⟩

/-- `ValidationRuleEngine.validate_slippage`. -/
def validate_slippage (expected_output min_output : Int) : ValidationResult :=
  if expected_output = 0 then
    ⟨false, "correctness", "Expected output is zero", "critical", none⟩
  else
    let slippage : Rat :=
      decimal_div (expected_output - min_output) expected_output * 100
    if security_rules.max_slippage_percent < slippage then
      ⟨false, "security",
        "Slippage " ++ fmt_2f slippage ++ "% exceeds maximum " ++
          max_slippage_str ++ "%",
        "warning",
        some "Reduce transaction size or use a different liquidity source with better depth"⟩
    else
      ⟨true, "security", "Slippage " ++ fmt_2f slippage ++ "% is acceptable",
        "info", none⟩

/-- `ValidationRuleEngine.validate_value`. -/
def validate_value (value : Int) (requires_confirmation : Bool) :
    ValidationResult :=
  if requires_confirmation &&
      decide (security_rules.max_value_without_confirmation < value) then
    ⟨false, "security",
      "Transaction value " ++ toString value ++ " exceeds confirmation threshold",
      "warning",
      some "Consider splitting into smaller transactions or implementing additional confirmation steps"⟩
  else
    ⟨true, "security", "Transaction value is within limits", "info", none⟩

/-- `ValidationRuleEngine.validate_protocol`. -/
def validate_protocol (protocol : String) : ValidationResult :=
  if protocol ∈ security_rules.allowed_protocols then
    ⟨true, "security", "Protocol " ++ protocol ++ " is allowed", "info", none⟩
  else
    ⟨false, "security", "Protocol " ++ protocol ++ " is not in allowed list",
      "critical",
      some ("Use one of the allowed protocols: " ++
        String.intercalate ", " security_rules.allowed_protocols)⟩

/-- `ValidationRuleEngine.validate_path_efficiency`. -/
def validate_path_efficiency (path : List String) (direct_available : Bool) :
    ValidationResult :=
  let hop_count : Int := (path.length : Int) - 1
  if efficiency_rules.max_hops < hop_count then
    ⟨false, "efficiency",
      "Path has " ++ toString hop_count ++ " hops, exceeds maximum " ++
        toString efficiency_rules.max_hops,
      "warning", some "Look for more direct routes or split the trade"⟩
  else if direct_available && decide (1 < hop_count) &&
      efficiency_rules.prefer_direct_paths then
    ⟨false, "efficiency",
      "Using " ++ toString hop_count ++ "-hop path when direct path is available",
      "warning", some "Use the direct trading pair for better gas efficiency"⟩
  else
    ⟨true, "efficiency",
      "Path with " ++ toString hop_count ++ " hop(s) is acceptable", "info", none⟩

/-! ### `evaluator.py` -/

/-- Generic association-list lookup (Python `d.get(key)` on other dicts). -/
def assoc_find {α : Type} : List (String × α) → String → Option α
  | [], _ => none
  | (k, v) :: rest, key => if k = key then some v else assoc_find rest key

/-- Caller objective: a mapping with the fields the core reads.  Fields that
the code accesses only by presence/absence are `Option`s. -/
structure Objective where
  type : Option String
  target_address : Option String
  expected_output : Option Int
  min_output : Option Int
  expected_changes : Option (List (String × Int))
  mev_protection : Option Bool
  protocol : Option String
  expected_state : Bool
deriving Repr, DecidableEq

/-- The empty objective `{}`. -/
def obj0 : Objective := ⟨none, none, none, none, none, none, none, false⟩

/-- Value stored in a simulation-result dict: bool, int, string, or the
nested `asset_changes` mapping of asset symbol to integer delta. -/
inductive SimVal where
  | b (v : Bool)
  | i (v : Int)
  | s (v : String)
  | changes (m : List (String × Int))
deriving Repr, DecidableEq

/-- A simulation-result dict. -/
abbrev SimDict := List (String × SimVal)

/-- Python truthiness of a simulation value. -/
def sim_truthy : SimVal → Bool
  | .b v => v
  | .i v => v != 0
  | .s v => !v.isEmpty
  | .changes m => !m.isEmpty

/-- Python f-string rendering of a simulation value (`repr` for dicts). -/
def py_str_sim : SimVal → String
  | .b v => if v then "True" else "False"
  | .i v => toString v
  | .s v => v
  | .changes m =>
    "\x7b" ++
      String.intercalate ", "
        (m.map (fun kv => "'" ++ kv.1 ++ "': " ++ toString kv.2)) ++ "\x7d"

/-- `TransactionEvaluator._determine_transaction_type`.  In the source,
`data == "0x"` on a non-string is `False` without error, after which
`len(data)` raises `TypeError`. -/
def determine_transaction_type (transaction : TxDict) (objective : Objective) :
    Except String String :=
  match dict_get transaction "data" (.s "0x") with
  | .s s =>
    if s = "0x" || decide (s.data.length ≤ 10) then .ok "eth_transfer"
    else
      let selector := str_take s 10
      if selector = "0xa9059cbb" then .ok "erc20_transfer"
      else
        let obj_type := str_lower (objective.type.getD "")
        if py_in "swap" obj_type then
          if py_in "multi" obj_type || py_in "triangular" obj_type then
            .ok "multi_hop_swap"
          else if py_in "complex" obj_type then .ok "complex_swap"
          else .ok "simple_swap"
        else .ok "complex_swap"
  | _ => .error "TypeError: object of this type has no len()"

/-- `TransactionEvaluator._validate_objective_alignment`. -/
def validate_objective_alignment (transaction : TxDict) (objective : Objective) :
    Except String (List ValidationResult) := do
  let target_results ←
    match objective.target_address with
    | some addr => do
      let to_lower ← py_lower (dict_get transaction "to" (.s ""))
      if to_lower ≠ str_lower addr then
        pure [⟨false, "correctness",
          "Transaction target doesn't match objective target", "critical",
          some "Ensure transaction is sent to the correct contract"⟩]
      else pure []
    | none => pure ([] : List ValidationResult)
  let slippage_results : List ValidationResult :=
    match objective.expected_output, objective.min_output with
    | some eo, some mo => [validate_slippage eo mo]
    | _, _ => []
  pure (target_results ++ slippage_results)

/-- Per-asset loop of `_validate_simulation`: compares each expected delta
with the simulated one.  Python computes
`abs(actual - expected) / abs(expected) > 0.02`, which raises
`ZeroDivisionError` when the expected delta is `0`; otherwise the float
comparison agrees with the exact `50*|a-e| > |e|` (floats of a ratio equal
to `1/50` round to the same float as the literal `0.02`). -/
def sim_changes_loop (ch : SimVal) :
    List (String × Int) → Except String (List ValidationResult)
  | [] => .ok []
  | (asset, expected_delta) :: rest => do
    let actual_delta ←
      match ch with
      | .changes m => Except.ok ((assoc_find m asset).getD 0)
      | _ => Except.error "AttributeError: object has no attribute get"
    if expected_delta = 0 then
      Except.error "ZeroDivisionError: division by zero"
    else
      let head : List ValidationResult :=
        if decide ((expected_delta.natAbs : Int) <
            50 * ((actual_delta - expected_delta).natAbs : Int)) then
          [⟨false, "correctness",
            "Asset " ++ asset ++ " change " ++ toString actual_delta ++
              " differs from expected " ++ toString expected_delta,
            "warning",
            some "Adjust transaction parameters to achieve desired asset changes"⟩]
        else []
      let tail ← sim_changes_loop ch rest
      pure (head ++ tail)

/-- `TransactionEvaluator._validate_simulation`. -/
def validate_simulation (simulation : SimDict) (objective : Objective) :
    Except String (List ValidationResult) :=
  let success := ((assoc_find simulation "success").map sim_truthy).getD false
  if !success then
    let error_msg :=
      match assoc_find simulation "error" with
      | some v => py_str_sim v
      | none => "Unknown error"
    .ok [⟨false, "correctness",
      "Transaction simulation failed: " ++ error_msg, "critical",
      some "Review transaction parameters and ensure sufficient balances"⟩]
  else
    match assoc_find simulation "asset_changes" with
    | none => .ok []
    | some ch => sim_changes_loop ch (objective.expected_changes.getD [])

/-- `TransactionEvaluator._is_mev_vulnerable`. -/
def is_mev_vulnerable (transaction : TxDict) (objective : Objective) :
    Except String Bool := do
  let value ← py_int (dict_get transaction "value" (.i 0))
  let obj_type := str_lower (objective.type.getD "")
  if py_in "swap" obj_type && decide ((10 ^ 18 : Int) < value) then
    pure (!(objective.mev_protection.getD false))
  else
    pure false

/-- `TransactionEvaluator._validate_security`. -/
def validate_security (transaction : TxDict) (objective : Objective) :
    Except String (List ValidationResult) := do
  let vulnerable ← is_mev_vulnerable transaction objective
  let mev_results : List ValidationResult :=
    if vulnerable then
      [⟨false, "security", "Transaction is vulnerable to MEV attacks",
        "warning",
        some "Consider using Flashbots or implementing commit-reveal pattern"⟩]
    else []
  let protocol_results : List ValidationResult :=
    match objective.protocol with
    | some p => [validate_protocol p]
    | none => []
  pure (mev_results ++ protocol_results)

/-- Step 2a of `evaluate_transaction`: the gas rule applies only when
`"gas" in transaction`. -/
def gas_step (transaction : TxDict) (tx_type : String) :
    Except String (List ValidationResult) :=
  if dict_mem transaction "gas" then do
    let r ← validate_gas transaction tx_type
    pure [r]
  else pure []

/-- Step 4 of `evaluate_transaction`: `if simulation_result:` — a `None`
or empty-dict simulation result is falsy and skips the checks. -/
def sim_step (objective : Objective) (simulation_result : Option SimDict) :
    Except String (List ValidationResult) :=
  match simulation_result with
  | some sim =>
    if sim.isEmpty then pure [] else validate_simulation sim objective
  | none => pure []

/-- Steps 1-5 of `TransactionEvaluator.evaluate_transaction`: the `results`
list as accumulated by the source, in order (gas, value, objective
alignment, simulation, security). -/
def evaluate_transaction_results (transaction : TxDict) (objective : Objective)
    (simulation_result : Option SimDict) :
    Except String (List ValidationResult) := do
  let tx_type ← determine_transaction_type transaction objective
  let gas_results ← gas_step transaction tx_type
  let value ← py_int (dict_get transaction "value" (.i 0))
  let value_results : List ValidationResult :=
    if 0 < value then [validate_value value true] else []
  let objective_results ← validate_objective_alignment transaction objective
  let sim_results ← sim_step objective simulation_result
  let security_results ← validate_security transaction objective
  pure (gas_results ++ value_results ++ objective_results ++ sim_results ++
    security_results)

/-- Overall validity: no result both failed and has severity `critical`. -/
def is_valid_of (results : List ValidationResult) : Bool :=
  (results.filter (fun r => !r.passed && r.severity == "critical")).length == 0

/-- `TransactionEvaluator.evaluate_transaction`. -/
def evaluate_transaction (transaction : TxDict) (objective : Objective)
    (simulation_result : Option SimDict) :
    Except String (Bool × List ValidationResult) := do
  let results ← evaluate_transaction_results transaction objective
    simulation_result
  pure (is_valid_of results, results)

/-! ### `subagents.py` -/

/-- Analysis context; the only key the subagents read is
`current_base_fee`. -/
structure Ctx where
  current_base_fee : Option Int
deriving Repr, DecidableEq

/-- The empty context `{}`. -/
def ctx0 : Ctx := ⟨none⟩

/-- Value of a hexadecimal digit character, if any: `0-9` are code points
48-57, `a-f` 97-102, `A-F` 65-70. -/
def hex_digit_val (c : Char) : Option Nat :=
  let n := c.toNat
  if 48 ≤ n && n ≤ 57 then some (n - 48)
  else if 97 ≤ n && n ≤ 102 then some (n - 87)
  else if 65 ≤ n && n ≤ 70 then some (n - 55)
  else none

/-- Python `bytes.fromhex` on a plain hex string: pairs of hex digits; odd
length or a non-hex character raises `ValueError`. -/
def bytes_fromhex : List Char → Except String (List Nat)
  | [] => .ok []
  | [_] => .error "ValueError: non-hexadecimal number found in fromhex() arg"
  | c1 :: c2 :: rest =>
    match hex_digit_val c1, hex_digit_val c2 with
    | some h, some l => do
      let bs ← bytes_fromhex rest
      pure ((16 * h + l) :: bs)
    | _, _ => .error "ValueError: non-hexadecimal number found in fromhex() arg"

/-- `GasAnalyzer._calculate_calldata_gas`: 4 gas per zero byte, 16 per
non-zero byte, after stripping an optional `0x`. -/
def calculate_calldata_gas (data : String) : Except String Int := do
  let stripped : String :=
    if py_startswith data "0x" then ⟨data.data.drop 2⟩ else data
  let bytes ← bytes_fromhex stripped.data
  pure (bytes.foldl (fun g b => g + (if b = 0 then 4 else 16)) 0)

/-- Storage-heavy selector heuristic of `GasAnalyzer._analyze_storage_access`. -/
def storage_heavy_results (selector : String) : List ValidationResult :=
  let mk (name : String) : List ValidationResult :=
    [⟨true, "gas",
      "Function " ++ name ++ " typically involves multiple storage operations",
      "info", some "Consider batching multiple calls if possible"⟩]
  if selector = "0x095ea7b3" then mk "approve"
  else if selector = "0x23b872dd" then mk "transferFrom"
  else if selector = "0x40c10f19" then mk "mint"
  else []

/-- `GasAnalyzer._analyze_gas_price_strategy`.  The float comparison
`max_fee < base_fee * 1.25` is embedded as the exact `4*max_fee <
5*base_fee`, and `int(base_fee * 1.5)` as `(3*base_fee)/2` truncated. -/
def gas_price_results (transaction : TxDict) (context : Ctx) :
    Except String (List ValidationResult) :=
  if dict_mem transaction "maxFeePerGas" &&
      dict_mem transaction "maxPriorityFeePerGas" then do
    let base_fee := context.current_base_fee.getD (30 * 10 ^ 9)
    let max_fee ← py_int (dict_get transaction "maxFeePerGas" (.i 0))
    let priority_fee ← py_int (dict_get transaction "maxPriorityFeePerGas" (.i 0))
    let r1 : List ValidationResult :=
      if 4 * max_fee < 5 * base_fee then
        [⟨false, "gas", "Max fee might be too low for timely inclusion",
          "warning",
          some ("Consider setting maxFeePerGas to at least " ++
            toString (Int.tdiv (3 * base_fee) 2) ++ " wei")⟩]
      else []
    let r2 : List ValidationResult :=
      if priority_fee < 10 ^ 9 then
        [⟨false, "gas", "Priority fee too low, transaction might be slow",
          "warning",
          some "Set priority fee to at least 2 gwei for reasonable inclusion time"⟩]
      else []
    pure (r1 ++ r2)
  else pure []

/-- `GasAnalyzer.analyze`. -/
def gas_analyze (transaction : TxDict) (objective : Objective) (context : Ctx) :
    Except String (List ValidationResult) :=
  match dict_get transaction "data" (.s "0x") with
  | .s dstr => do
    let calldata_results ←
      if 10 < dstr.data.length then do
        let g ← calculate_calldata_gas dstr
        let cd : List ValidationResult :=
          if 50000 < g then
            [⟨false, "gas", "Calldata alone costs " ++ toString g ++ " gas",
              "warning",
              some "Consider using more efficient encoding or calldata compression"⟩]
          else []
        pure (cd ++ storage_heavy_results (str_take dstr 10))
      else pure ([] : List ValidationResult)
    let gp ← gas_price_results transaction context
    pure (calldata_results ++ gp)
  | _ => .error "TypeError: object of this type has no len()"

/-- Privileged-selector table of `SecurityValidator._check_access_control`. -/
def priv_results (selector : String) : List ValidationResult :=
  let mk (name : String) : List ValidationResult :=
    [⟨false, "security", "Calling privileged function " ++ name, "critical",
      some "Ensure you have the required permissions before calling"⟩]
  if selector = "0x715018a6" then mk "renounceOwnership"
  else if selector = "0xf2fde38b" then mk "transferOwnership"
  else if selector = "0x3ccfd60b" then mk "withdraw"
  else if selector = "0x853828b6" then mk "withdrawAll"
  else []

/-- `SecurityValidator.analyze`. -/
def security_analyze (transaction : TxDict) (objective : Objective)
    (context : Ctx) : Except String (List ValidationResult) := do
  let value ← py_int (dict_get transaction "value" (.i 0))
  let reentrancy_results ←
    if 0 < value then do
      let n ← py_len (dict_get transaction "data" (.s "0x"))
      pure (if 10 < n then
        [⟨false, "security",
          "Transaction sends ETH while executing complex logic", "warning",
          some "Ensure the target contract follows checks-effects-interactions pattern"⟩]
      else [])
    else pure ([] : List ValidationResult)
  let obj_type := str_lower (objective.type.getD "")
  let value2 ← py_int (dict_get transaction "value" (.i 0))
  let frontrun_results : List ValidationResult :=
    if py_in "swap" obj_type && decide ((5 * 10 ^ 18 : Int) < value2) &&
        !(objective.mev_protection.getD false) then
      [⟨false, "security",
        "Large swap without MEV protection is vulnerable to sandwich attacks",
        "critical", some "Use Flashbots RPC or implement commit-reveal pattern"⟩]
    else []
  let access_results ←
    match dict_get transaction "data" (.s "0x") with
    | .s s =>
      Except.ok (if 10 ≤ s.data.length then priv_results (str_take s 10) else [])
    | _ => Except.error "TypeError: object of this type has no len()"
  let to_address ← py_lower (dict_get transaction "to" (.s ""))
  let contract_results : List ValidationResult :=
    if to_address ≠ "" && !(py_startswith to_address "0x00000") then
      [⟨true, "security", "Ensure target contract is verified and audited",
        "info", none⟩]
    else []
  pure (reentrancy_results ++ frontrun_results ++ access_results ++
    contract_results)

/-- `MEVInspector._calculate_mev_profit`; `int(x * 0.5)` is the exact
truncated halving for the int magnitudes involved. -/
def calculate_mev_profit (transaction : TxDict) (objective : Objective) : Int :=
  let obj_type := str_lower (objective.type.getD "")
  if py_in "swap" obj_type then
    let expected_output := objective.expected_output.getD 0
    let min_output := objective.min_output.getD 0
    if expected_output ≠ 0 && min_output ≠ 0 then
      Int.tdiv (expected_output - min_output) 2
    else 0
  else 0

/-- `MEVInspector.analyze`.  The float threshold `0.1 * 10**18` is the
exact `10^17`. -/
def mev_analyze (transaction : TxDict) (objective : Objective) (context : Ctx) :
    Except String (List ValidationResult) :=
  let mev_profit := calculate_mev_profit transaction objective
  let profit_results : List ValidationResult :=
    if 10 ^ 17 < mev_profit then
      [⟨false, "security",
        "Transaction could be targeted by MEV bots (potential profit: " ++
          fmt_3f ((mev_profit : Rat) / 10 ^ 18) ++ " ETH)",
        "critical",
        some "Use private mempool or implement MEV protection strategies"⟩]
    else []
  let obj_type := str_lower (objective.type.getD "")
  let sandwich_results : List ValidationResult :=
    if py_in "swap" obj_type && !(objective.mev_protection.getD false) then
      [⟨false, "security", "Vulnerable to sandwich attack", "warning",
        some "Use MEV-protected RPC or split into smaller trades"⟩]
    else []
  let liquidation_results : List ValidationResult :=
    if py_in "liquidation" obj_type then
      [⟨false, "security", "Vulnerable to liquidation front-running attack",
        "warning", some "Use flashloan-based atomic liquidation"⟩]
    else []
  .ok (profit_results ++ sandwich_results ++ liquidation_results)

/-- `StateValidator.analyze`. -/
def state_analyze (transaction : TxDict) (objective : Objective) (context : Ctx) :
    Except String (List ValidationResult) := do
  let balance_results : List ValidationResult :=
    (objective.expected_changes.getD []).map (fun kv =>
      ⟨true, "correctness",
        "Expecting " ++ kv.1 ++ " balance change of " ++ toString kv.2,
        "info", none⟩)
  let approval_results ←
    match dict_get transaction "data" (.s "0x") with
    | .s s =>
      Except.ok (if 10 ≤ s.data.length && str_take s 10 = "0x23b872dd" then
        [⟨true, "correctness",
          "Ensure token approval is set before transferFrom", "info",
          some "Check allowance before attempting transfer"⟩]
      else [])
    | _ => Except.error "TypeError: object of this type has no len()"
  let state_results : List ValidationResult :=
    if objective.expected_state then
      [⟨true, "correctness",
        "Transaction should be simulated to verify state changes", "info",
        some "Use transaction simulation to confirm expected state"⟩]
    else []
  pure (balance_results ++ approval_results ++ state_results)

/-- Keys of `SubAgentCoordinator.subagents`, in insertion order. -/
def subagent_names : List String := ["gas", "security", "mev", "state"]

/-- Dispatch to the subagent registered under `name`. -/
def run_agent (name : String) (transaction : TxDict) (objective : Objective)
    (context : Ctx) : Except String (List ValidationResult) :=
  if name = "gas" then gas_analyze transaction objective context
  else if name = "security" then security_analyze transaction objective context
  else if name = "mev" then mev_analyze transaction objective context
  else if name = "state" then state_analyze transaction objective context
  else .ok []

/-- The `try/except` wrapper of `SubAgentCoordinator.analyze_transaction`:
a raising subagent is converted into one synthetic error result. -/
def wrap_agent (name : String) (transaction : TxDict) (objective : Objective)
    (context : Ctx) : List ValidationResult :=
  match run_agent name transaction objective context with
  | .ok rs => rs
  | .error e =>
    [⟨false, "error", "Subagent " ++ name ++ " failed: " ++ e, "warning", none⟩]

/-- Python `d[key] = v` on a generic string-keyed dict. -/
def assoc_set {α : Type} : List (String × α) → String → α → List (String × α)
  | [], key, v => [(key, v)]
  | (k, w) :: rest, key, v =>
    if k = key then (k, v) :: rest else (k, w) :: assoc_set rest key v

/-- The agent names actually run: the requested ones (default: all four)
restricted to the registered table. -/
def selected_agents (agents : Option (List String)) : List String :=
  (agents.getD subagent_names).filter (fun n => decide (n ∈ subagent_names))

/-- `SubAgentCoordinator.analyze_transaction`: run the selected subagents
over one immutable input and collect a `name → results` mapping; no
exception escapes. -/
def analyze_transaction (transaction : TxDict) (objective : Objective)
    (context : Option Ctx) (agents : Option (List String)) :
    List (String × List ValidationResult) :=
  let ctx := context.getD ctx0
  (selected_agents agents).foldl
    (fun acc n => assoc_set acc n (wrap_agent n transaction objective ctx)) []

/-! ### `optimizer.py`

Python dict mutation matters for the copy-on-write claim, so the optimizer
is modelled over a heap of dict objects (`Heap`, refs are indices):
`transaction.copy()` allocates a fresh slot, and every write the strategies
perform (`tx[k] = v`, `tx.update(...)`) targets that fresh object, which is
threaded through the strategies and written back to the fresh slot.  On an
exception the partially-edited copy sits at the fresh slot (its exact
partial content inside a raising strategy is not claimed by anything); the
caller's slot is never written. -/

/-- Evaluation-result dict as consumed by the optimizer
(`result["passed"]`, `result["category"]`, `result["message"]`). -/
structure EvalResultD where
  passed : Bool
  category : String
  message : String
deriving Repr, DecidableEq

/-- Append `r` to the group of its category, keeping first-seen category
order (insertion-ordered dict of lists). -/
def append_group : List (String × List EvalResultD) → String → EvalResultD →
    List (String × List EvalResultD)
  | [], cat, r => [(cat, [r])]
  | (k, rs) :: rest, cat, r =>
    if k = cat then (k, rs ++ [r]) :: rest
    else (k, rs) :: append_group rest cat r

/-- The `issues_by_category` grouping of `optimize_transaction`: failed
results only, grouped by category in first-seen order. -/
def group_issues (results : List EvalResultD) :
    List (String × List EvalResultD) :=
  results.foldl
    (fun acc r => if r.passed then acc else append_group acc r.category r) []

/-- Python `int(v * 0.75)` on a dict scalar (exact for the int magnitudes
involved; truncation toward zero). -/
def py_mul_3_4 : TxVal → Except String Int
  | .i v => .ok (Int.tdiv (3 * v) 4)
  | .b _ => .ok 0
  | .s _ => .error "TypeError: cannot multiply str by float"

/-- Python `int(v * 1.5)` on a dict scalar. -/
def py_mul_3_2 : TxVal → Except String Int
  | .i v => .ok (Int.tdiv (3 * v) 2)
  | .b v => .ok (if v then 1 else 0)
  | .s _ => .error "TypeError: cannot multiply str by float"

/-- `TransactionOptimizer._optimize_calldata` (returns its input in every
branch). -/
def optimize_calldata (data : String) (objective : Objective) : String :=
  if 200 < data.data.length &&
      py_in "swap" (str_lower (objective.type.getD "")) then data
  else data

/-- `TransactionOptimizer._add_slippage_protection` (placeholder, `None`). -/
def add_slippage_protection (tx : TxDict) (objective : Objective) :
    Option TxDict := none

/-- `TransactionOptimizer._add_mev_protection`. -/
def add_mev_protection (tx : TxDict) (objective : Objective) : Option TxDict :=
  some [("flashbots_bundle", .b true),
        ("max_priority_fee_per_gas", .s "5000000000")]

/-- `TransactionOptimizer._find_direct_path` (placeholder, `None`). -/
def find_direct_path (tx : TxDict) (objective : Objective) : Option String :=
  none

/-- `TransactionOptimizer._reduce_hop_count` (placeholder, `None`). -/
def reduce_hop_count (tx : TxDict) (objective : Objective) : Option String :=
  none

/-- `TransactionOptimizer._fix_simulation_issues`: returns the dict of
fixes to merge and the descriptions to record. -/
def fix_simulation_issues (tx : TxDict) (issue : EvalResultD)
    (objective : Objective) : Except String (TxDict × List String) :=
  let error_msg := str_lower issue.message
  if py_in "insufficient balance" error_msg then
    if dict_mem tx "value" then do
      let v ← py_int (dict_get tx "value" (.i 0))
      if 0 < v then
        pure ([("value", TxVal.s (toString (Int.fdiv v 2)))],
          ["Reduced transaction value to avoid insufficient balance"])
      else pure ([], [])
    else pure ([], [])
  else if py_in "gas required exceeds allowance" error_msg then
    if dict_mem tx "gas" then do
      let g ← py_mul_3_2 (dict_get tx "gas" (.i 0))
      pure ([("gas", TxVal.i g)], ["Increased gas limit to ensure execution"])
    else pure ([], [])
  else pure ([], [])

/-- `TransactionOptimizer._optimize_gas` (loop over the gas issues). -/
def optimize_gas_loop (tx : TxDict) (objective : Objective) :
    List EvalResultD → Except String (TxDict × List String)
  | [] => .ok (tx, [])
  | issue :: rest => do
    let step ←
      if py_in "exceeds threshold" issue.message then do
        let step_a ←
          if dict_mem tx "data" then do
            let n ← py_len (dict_get tx "data" (.s ""))
            if 10 < n then
              match dict_get tx "data" (.s "") with
              | .s d =>
                let od := optimize_calldata d objective
                if od ≠ d then
                  pure (dict_set tx "data" (.s od),
                    ["Optimized calldata encoding for gas efficiency"])
                else pure (tx, ([] : List String))
              | _ => pure (tx, ([] : List String))
            else pure (tx, ([] : List String))
          else pure (tx, ([] : List String))
        if dict_mem step_a.1 "gas" then do
          let original_gas := dict_get step_a.1 "gas" (.i 0)
          let new_gas ← py_mul_3_4 original_gas
          pure (dict_set step_a.1 "gas" (.i new_gas),
            step_a.2 ++
              ["Reduced gas limit from " ++ py_str original_gas ++ " to " ++
                toString new_gas])
        else pure step_a
      else pure (tx, ([] : List String))
    let done ← optimize_gas_loop step.1 objective rest
    pure (done.1, step.2 ++ done.2)

/-- `TransactionOptimizer._optimize_security` (loop over the issues). -/
def optimize_security_loop (tx : TxDict) (objective : Objective) :
    List EvalResultD → TxDict × List String
  | [] => (tx, [])
  | issue :: rest =>
    let step :=
      if py_in "Slippage" issue.message then
        match add_slippage_protection tx objective with
        | some t => (t, ["Added improved slippage protection"])
        | none => (tx, ([] : List String))
      else if py_in "MEV vulnerable" issue.message then
        match add_mev_protection tx objective with
        | some m => (dict_update tx m, ["Added MEV protection measures"])
        | none => (tx, ([] : List String))
      else if py_in "value exceeds confirmation threshold" issue.message then
        (tx, ["Consider splitting into multiple smaller transactions"])
      else (tx, ([] : List String))
    let done := optimize_security_loop step.1 objective rest
    (done.1, step.2 ++ done.2)

/-- `TransactionOptimizer._optimize_efficiency` (loop over the issues;
both rewrites are no-op hook points because the finders return `None`). -/
def optimize_efficiency_loop (tx : TxDict) (objective : Objective) :
    List EvalResultD → TxDict × List String
  | [] => (tx, [])
  | issue :: rest =>
    let step :=
      if py_in "hop path when direct path is available" issue.message then
        match find_direct_path tx objective with
        | some d => (dict_set tx "data" (.s d), ["Switched to direct trading path"])
        | none => (tx, ([] : List String))
      else if py_in "exceeds maximum" issue.message &&
          py_in "hops" issue.message then
        match reduce_hop_count tx objective with
        | some d => (dict_set tx "data" (.s d), ["Reduced swap path complexity"])
        | none => (tx, ([] : List String))
      else (tx, ([] : List String))
    let done := optimize_efficiency_loop step.1 objective rest
    (done.1, step.2 ++ done.2)

/-- `TransactionOptimizer._optimize_correctness` (loop over the issues). -/
def optimize_correctness_loop (tx : TxDict) (objective : Objective) :
    List EvalResultD → Except String (TxDict × List String)
  | [] => .ok (tx, [])
  | issue :: rest => do
    let step ←
      if py_in "target doesn't match" issue.message then
        match objective.target_address with
        | some addr =>
          pure (dict_set tx "to" (.s addr),
            ["Corrected target address to " ++ addr])
        | none => pure (tx, ([] : List String))
      else if py_in "simulation failed" issue.message then do
        let fixes ← fix_simulation_issues tx issue objective
        pure (dict_update tx fixes.1, fixes.2)
      else pure (tx, ([] : List String))
    let done ← optimize_correctness_loop step.1 objective rest
    pure (done.1, step.2 ++ done.2)

/-- Category-keyed strategy dispatch (`optimization_strategies`); unknown
categories are skipped. -/
def run_strategy (category : String) (tx : TxDict) (issues : List EvalResultD)
    (objective : Objective) : Except String (TxDict × List String) :=
  if category = "gas" then optimize_gas_loop tx objective issues
  else if category = "security" then
    .ok (optimize_security_loop tx objective issues)
  else if category = "efficiency" then
    .ok (optimize_efficiency_loop tx objective issues)
  else if category = "correctness" then
    optimize_correctness_loop tx objective issues
  else .ok (tx, [])

/-- Sequential composition of the per-category strategies over the one
mutable copy; the dict is threaded so its state survives an exception. -/
def run_strategies : TxDict → List (String × List EvalResultD) → Objective →
    TxDict × Except String (List String)
  | tx, [], _ => (tx, .ok [])
  | tx, (cat, issues) :: rest, obj =>
    match run_strategy cat tx issues obj with
    | .ok step =>
      match run_strategies step.1 rest obj with
      | (txF, .ok opts) => (txF, .ok (step.2 ++ opts))
      | (txF, .error e) => (txF, .error e)
    | .error e => (tx, .error e)

/-- Heap of dict objects; a transaction reference is an index. -/
abbrev Heap := List TxDict

/-- Dereference a transaction object. -/
def heap_get (h : Heap) (r : Nat) : TxDict := h.getD r []

/-- `TransactionOptimizer.optimize_transaction` over the heap:
`transaction.copy()` allocates a fresh object (slot `h.length`), the
strategies edit only that object, and the pair
`(optimized_tx, applied)` — here the fresh ref and the descriptions — is
returned unless a strategy raised. -/
def optimize_transaction (h : Heap) (r : Nat)
    (evaluation_results : List EvalResultD) (objective : Objective) :
    Heap × Except String (Nat × List String) :=
  let tx0 := heap_get h r
  match run_strategies tx0 (group_issues evaluation_results) objective with
  | (txF, .ok applied) => (h ++ [txF], .ok (h.length, applied))
  | (txF, .error e) => (h ++ [txF], .error e)

/-! ### Concrete inputs and result shapes used in the claim statements -/

/-- The 2-ETH plain-transfer scenario transaction. -/
def c3_tx : TxDict :=
  [("to", .s "0xDEAD"), ("value", .s "2000000000000000000"),
   ("data", .s "0x"), ("gas", .i 21000)]

/-- The objective `{type: "transfer"}`. -/
def c3_obj : Objective :=
  ⟨some "transfer", none, none, none, none, none, none, false⟩

/-- The hop-count failure shape of `validate_path_efficiency`. -/
def hop_fail_result (hop_count : Int) : ValidationResult :=
  ⟨false, "efficiency",
    "Path has " ++ toString hop_count ++ " hops, exceeds maximum " ++
      toString efficiency_rules.max_hops,
    "warning", some "Look for more direct routes or split the trade"⟩

/-- The direct-path-preference failure shape of
`validate_path_efficiency`. -/
def direct_fail_result (hop_count : Int) : ValidationResult :=
  ⟨false, "efficiency",
    "Using " ++ toString hop_count ++ "-hop path when direct path is available",
    "warning", some "Use the direct trading pair for better gas efficiency"⟩

/-- The error message `_validate_simulation` reports for a failed
simulation. -/
def sim_error_msg (sim : SimDict) : String :=
  match assoc_find sim "error" with
  | some v => py_str_sim v
  | none => "Unknown error"

/-- The critical result `_validate_simulation` emits for a falsy
`success`. -/
def sim_fail_result (sim : SimDict) : ValidationResult :=
  ⟨false, "correctness", "Transaction simulation failed: " ++ sim_error_msg sim,
    "critical",
    some "Review transaction parameters and ensure sufficient balances"⟩

/-! ### Helper lemmas -/

theorem str_data_append (a b : String) : (a ++ b).data = a.data ++ b.data := by
  cases a
  cases b
  rfl

theorem sw_self_append : ∀ (p r : List Char),
    starts_with_chars p (p ++ r) = true := by
  intro p
  induction p with
  | nil => intro r; rfl
  | cons c cs ih => intro r; simp [starts_with_chars, ih]

theorem sw_trans_append : ∀ (p q r : List Char),
    starts_with_chars p q = true → starts_with_chars p (q ++ r) = true := by
  intro p
  induction p with
  | nil => intros; rfl
  | cons c cs ih =>
    intro q r h
    cases q with
    | nil => simp [starts_with_chars] at h
    | cons b bs =>
      simp [starts_with_chars] at h ⊢
      exact ⟨h.1, ih bs r h.2⟩

theorem has_sub_of_sw (p l : List Char) (h : starts_with_chars p l = true) :
    has_sub_chars p l = true := by
  cases l with
  | nil =>
    cases p with
    | nil => rfl
    | cons c cs => simp [starts_with_chars] at h
  | cons c cs => simp [has_sub_chars, h]

theorem has_sub_append (p pre post : List Char) :
    has_sub_chars p (pre ++ (p ++ post)) = true := by
  induction pre with
  | nil => exact has_sub_of_sw _ _ (sw_self_append p post)
  | cons c cs ih => simp [has_sub_chars, ih]

theorem py_in_of_shape (pat s : String) (pre post : List Char)
    (hs : s.data = pre ++ (pat.data ++ post)) : py_in pat s = true := by
  unfold py_in
  rw [hs]
  exact has_sub_append _ _ _

theorem py_in_of_sw (pat s : String)
    (h : starts_with_chars pat.data s.data = true) : py_in pat s = true :=
  has_sub_of_sw _ _ h

theorem is_valid_of_iff (rs : List ValidationResult) :
    is_valid_of rs = true ↔
      ∀ r ∈ rs, ¬(r.passed = false ∧ r.severity = "critical") := by
  unfold is_valid_of
  rw [beq_iff_eq, List.length_eq_zero, List.filter_eq_nil_iff]
  constructor
  · intro h r hr hc
    exact h r hr (by simp [hc.1, hc.2])
  · intro h r hr hb
    simp only [Bool.and_eq_true, Bool.not_eq_true', beq_iff_eq] at hb
    exact h r hr ⟨hb.1, hb.2⟩

theorem is_valid_of_false (rs : List ValidationResult) (r : ValidationResult)
    (hm : r ∈ rs) (hp : r.passed = false) (hs : r.severity = "critical") :
    is_valid_of rs = false := by
  cases h : is_valid_of rs with
  | false => rfl
  | true => exact absurd ⟨hp, hs⟩ ((is_valid_of_iff rs).mp h r hm)

/-! ### Claim C1 -/

/-- C1.  For every transaction, objective and optional simulation result on
which `evaluate_transaction` returns, the returned `is_valid` is `true` iff
no returned result has `passed = false` together with severity `critical`;
failing warnings or infos never block validity. -/
theorem evaluate_transaction_validity (transaction : TxDict)
    (objective : Objective) (simulation_result : Option SimDict)
    (v : Bool) (rs : List ValidationResult)
    (hok : evaluate_transaction transaction objective simulation_result
      = .ok (v, rs)) :
    v = true ↔ ∀ r ∈ rs, ¬(r.passed = false ∧ r.severity = "critical") := by
  unfold evaluate_transaction at hok
  cases hres : evaluate_transaction_results transaction objective
      simulation_result with
  | error e =>
    rw [hres] at hok
    exact absurd hok (by simp [Bind.bind, Except.bind])
  | ok rs0 =>
    rw [hres] at hok
    simp only [Bind.bind, Except.bind, pure, Except.pure, Except.ok.injEq,
      Prod.mk.injEq] at hok
    obtain ⟨hv, hrs⟩ := hok
    subst hrs
    subst hv
    exact is_valid_of_iff rs0

/-- Witness for C1 at the 2-ETH plain-transfer scenario. -/
theorem evaluate_transaction_validity_witness :
    (true = true ↔
      ∀ r ∈ [(⟨true, "gas", "Gas limit 21000 is within acceptable range",
                "info", none⟩ : ValidationResult),
             ⟨false, "security",
              "Transaction value 2000000000000000000 exceeds confirmation threshold",
              "warning",
              some "Consider splitting into smaller transactions or implementing additional confirmation steps"⟩],
        ¬(r.passed = false ∧ r.severity = "critical")) :=
  evaluate_transaction_validity
    [("to", .s "0xDEAD"), ("value", .s "2000000000000000000"),
     ("data", .s "0x"), ("gas", .i 21000)]
    ⟨some "transfer", none, none, none, none, none, none, false⟩ none _ _ rfl

/-! ### Claim C2 -/

/-- C2.  The code violates the no-exception contract: with a zero expected
delta and an `asset_changes` mapping present in a successful simulation
result, `_validate_simulation` divides by `abs(expected_delta) = 0` and the
`ZeroDivisionError` escapes `evaluate_transaction`. -/
theorem evaluate_transaction_zero_delta_raises :
    evaluate_transaction []
      ⟨none, none, none, none, some [("ETH", 0)], none, none, false⟩
      (some [("success", SimVal.b true),
             ("asset_changes", SimVal.changes [("ETH", 1)])])
      = .error "ZeroDivisionError: division by zero" := rfl

/-! ### Claim C3 -/

/-- C3 counterexample.  The scenario evaluates valid but returns TWO
results (a passed gas `info` plus the value `warning`), not exactly one. -/
theorem c3_scenario_two_results :
    (evaluate_transaction c3_tx c3_obj none).map (fun p => (p.1, p.2.length))
      = .ok (true, 2)
    ∧ (evaluate_transaction c3_tx c3_obj none).map (fun p => p.2.length)
      ≠ .ok 1 := by
  refine ⟨rfl, ?_⟩
  intro h
  rw [show (evaluate_transaction c3_tx c3_obj none).map (fun p => p.2.length)
      = .ok 2 from rfl] at h
  simp at h

/-- C3 amended.  The scenario evaluates valid; the result list has exactly
two entries: a passed `gas`/`info` result and the value-exceeds-1-ETH
confirmation warning (`security`/`warning`), which is the only failing
result and the only `security`-category result. -/
theorem c3_scenario_amended :
    evaluate_transaction c3_tx c3_obj none
      = .ok (true,
        [⟨true, "gas", "Gas limit 21000 is within acceptable range", "info",
          none⟩,
         ⟨false, "security",
          "Transaction value 2000000000000000000 exceeds confirmation threshold",
          "warning",
          some "Consider splitting into smaller transactions or implementing additional confirmation steps"⟩]) :=
  rfl

/-! ### Claim C4 -/

theorem hop_ne_direct (m n : Int) : hop_fail_result m ≠ direct_fail_result n := by
  intro h
  have h2 : (some "Look for more direct routes or split the trade" : Option String)
      = some "Use the direct trading pair for better gas efficiency" :=
    congrArg ValidationResult.optimization_tip h
  exact absurd h2 (by decide)

theorem pass_ne_hop (path : List String) (direct_available : Bool) (n : Int)
    (h : (validate_path_efficiency path direct_available).passed = true) :
    validate_path_efficiency path direct_available ≠ hop_fail_result n := by
  intro he
  rw [he] at h
  exact absurd h (by simp [hop_fail_result])

theorem pass_ne_direct (path : List String) (direct_available : Bool) (n : Int)
    (h : (validate_path_efficiency path direct_available).passed = true) :
    validate_path_efficiency path direct_available ≠ direct_fail_result n := by
  intro he
  rw [he] at h
  exact absurd h (by simp [direct_fail_result])

/-- C4 counterexample.  A 5-hop path with a direct route available is
flagged only for the hop count: the single returned result is the
hop-count failure and does not mention the direct path, although
`direct_available ∧ hop_count > 1 ∧ prefer_direct_paths` all hold. -/
theorem path_efficiency_not_independent :
    validate_path_efficiency ["t1", "t2", "t3", "t4", "t5", "t6"] true
      = hop_fail_result 5
    ∧ py_in "direct path is available"
        (validate_path_efficiency ["t1", "t2", "t3", "t4", "t5", "t6"] true).message
      = false := ⟨rfl, rfl⟩

/-- C4 amended.  With the defaults (`max_hops = 3`,
`prefer_direct_paths = true`), `validate_path_efficiency` returns the
hop-count failure iff `n > 3`, and returns the direct-path-preference
failure iff `direct_available ∧ n > 1 ∧ ¬ n > 3`: the hop-count check takes
precedence and only a single result is ever returned, so the two
conditions are not independent. -/
theorem validate_path_efficiency_flags (path : List String)
    (direct_available : Bool) :
    (validate_path_efficiency path direct_available
        = hop_fail_result ((path.length : Int) - 1)
      ↔ 3 < (path.length : Int) - 1)
    ∧ (validate_path_efficiency path direct_available
        = direct_fail_result ((path.length : Int) - 1)
      ↔ direct_available = true ∧ 1 < (path.length : Int) - 1
          ∧ ¬ 3 < (path.length : Int) - 1) := by
  unfold validate_path_efficiency
  by_cases h3 : efficiency_rules.max_hops < (path.length : Int) - 1
  · have h3' : (3 : Int) < (path.length : Int) - 1 := by
      simpa [efficiency_rules] using h3
    simp only [h3, if_true]
    constructor
    · exact ⟨fun _ => h3', fun _ => rfl⟩
    · constructor
      · intro h
        exact absurd h (hop_ne_direct _ _)
      · rintro ⟨_, _, hcon⟩
        exact absurd h3' hcon
  · simp only [h3, if_false]
    by_cases hd : (direct_available && decide (1 < (path.length : Int) - 1) &&
        efficiency_rules.prefer_direct_paths) = true
    · simp only [hd, if_true]
      have hd' : direct_available = true ∧ 1 < (path.length : Int) - 1 := by
        simp [efficiency_rules] at hd
        exact hd
      constructor
      · constructor
        · intro h
          exact absurd h.symm (hop_ne_direct _ _)
        · intro hlt
          exact absurd (by simpa [efficiency_rules] using hlt) h3
      · constructor
        · intro _
          exact ⟨hd'.1, hd'.2, by simpa [efficiency_rules] using h3⟩
        · intro _
          rfl
    · simp only [hd, if_false]
      constructor
      · constructor
        · intro h
          have h2 : true = false := congrArg ValidationResult.passed h
          exact absurd h2 (by decide)
        · intro hlt
          exact absurd (by simpa [efficiency_rules] using hlt) h3
      · constructor
        · intro h
          have h2 : true = false := congrArg ValidationResult.passed h
          exact absurd h2 (by decide)
        · rintro ⟨hda, hgt, _⟩
          simp [efficiency_rules, hda, hgt] at hd

/-! ### Claim C5 -/

/-- C5 counterexample.  `validate_slippage` computes the quotient with
`Decimal` default-context division, which rounds to 28 significant digits:
at `expected_output = 10^30` with a shortfall of `2*10^28 + 1` the exact
slippage is `2 + 10^-28 > 2` (the claim says: fail), yet the rounded
quotient is exactly `0.02` and the check passes. -/
theorem validate_slippage_not_exact :
    (validate_slippage (10 ^ 30) (10 ^ 30 - 2 * 10 ^ 28 - 1)).passed = true
    ∧ ¬(((10 : Rat) ^ 30 - ((10 : Rat) ^ 30 - 2 * 10 ^ 28 - 1)) / 10 ^ 30 * 100
        ≤ 2) := by
  have harg : ((10 : Int) ^ 30 - (10 ^ 30 - 2 * 10 ^ 28 - 1)) = 2 * 10 ^ 28 + 1 := by
    decide
  have hcore : decimal_div_core (2 * 10 ^ 28 + 1) ((10 : Int) ^ 30)
      = (2 * 10 ^ 27, 29) := by decide
  have hdd : decimal_div ((10 : Int) ^ 30 - (10 ^ 30 - 2 * 10 ^ 28 - 1))
      ((10 : Int) ^ 30) = ((2 * 10 ^ 27 : Int) : Rat) / ((10 ^ 29 : Nat) : Rat) := by
    rw [harg]
    simp only [decimal_div, hcore]
    norm_num [show Int.toNat 29 = 29 from rfl]
  constructor
  · unfold validate_slippage
    rw [if_neg (show ¬((10 : Int) ^ 30 = 0) by decide)]
    have hc : ¬ (security_rules.max_slippage_percent <
        decimal_div ((10 : Int) ^ 30 - (10 ^ 30 - 2 * 10 ^ 28 - 1))
          ((10 : Int) ^ 30) * 100) := by
      rw [hdd, show security_rules.max_slippage_percent = (2 : Rat) from rfl]
      norm_num
    rw [if_neg hc]
  · norm_num

/-- C5 amended.  For `expected_output > 0`, `validate_slippage` passes iff
the 28-significant-digit `Decimal` quotient times 100 is at most the
default maximum 2.0 (this agrees with the exact-arithmetic condition except
for quotients within half an ulp of the 28-digit boundary), and a failure
at positive `expected_output` has severity `warning`; `expected_output = 0`
always fails with severity `critical`. -/
theorem validate_slippage_spec (expected_output min_output : Int) :
    (0 < expected_output →
      ((validate_slippage expected_output min_output).passed = true
        ↔ decimal_div (expected_output - min_output) expected_output * 100 ≤ 2)
      ∧ ((validate_slippage expected_output min_output).passed = false →
        (validate_slippage expected_output min_output).severity = "warning"))
    ∧ (validate_slippage 0 min_output).passed = false
    ∧ (validate_slippage 0 min_output).severity = "critical" := by
  refine ⟨?_, rfl, rfl⟩
  intro hpos
  have hne : expected_output ≠ 0 := by omega
  unfold validate_slippage
  rw [if_neg hne]
  have hmax : security_rules.max_slippage_percent = (2 : Rat) := rfl
  by_cases hgt : security_rules.max_slippage_percent <
      decimal_div (expected_output - min_output) expected_output * 100
  · rw [if_pos hgt]
    rw [hmax] at hgt
    constructor
    · constructor
      · intro h
        simp at h
      · intro hle
        exact absurd hgt (not_lt.mpr hle)
    · intro _
      rfl
  · rw [if_neg hgt]
    rw [hmax] at hgt
    constructor
    · constructor
      · intro _
        exact not_lt.mp hgt
      · intro _
        rfl
    · intro h
      simp at h

/-- Witness for C5 amended: slippage 10% on `(100, 90)` fails with severity
`warning`. -/
theorem validate_slippage_spec_witness :
    (0 : Int) < 100 ∧ (validate_slippage 100 90).passed = false
    ∧ (validate_slippage 100 90).severity = "warning" := by
  have h := (validate_slippage_spec 100 90).1 (by decide)
  have hcore : decimal_div_core (100 - 90 : Int) 100 = (10 ^ 27, 28) := by
    decide
  have hnot : ¬ decimal_div (100 - 90 : Int) 100 * 100 ≤ 2 := by
    simp only [decimal_div, hcore]
    norm_num [show Int.toNat 28 = 28 from rfl]
  have hp : (validate_slippage 100 90).passed = false := by
    cases hp : (validate_slippage 100 90).passed with
    | false => rfl
    | true => exact absurd (h.1.mp hp) hnot
  exact ⟨by decide, hp, h.2 hp⟩

/-! ### Claim C9 -/

/-- C9 counterexample.  Data consisting of exactly the ERC20 `transfer`
selector (10 characters, non-empty) is classified `eth_transfer`, not
`erc20_transfer`, because the length cutoff is `<= 10`. -/
theorem determine_type_bare_selector :
    determine_transaction_type [("data", .s "0xa9059cbb")] obj0
      = .ok "eth_transfer"
    ∧ "eth_transfer" ≠ "erc20_transfer" := ⟨rfl, by decide⟩

/-- C9 amended.  For every transaction whose `data` is a string longer
than 10 characters beginning with the selector `0xa9059cbb`, and every
objective, the transaction is classified `erc20_transfer`. -/
theorem determine_type_erc20 (transaction : TxDict) (objective : Objective)
    (s : String)
    (hdata : dict_find transaction "data" = some (.s s))
    (hlen : 10 < s.data.length)
    (hsel : str_take s 10 = "0xa9059cbb") :
    determine_transaction_type transaction objective = .ok "erc20_transfer" := by
  unfold determine_transaction_type dict_get
  rw [hdata]
  have h0x : s ≠ "0x" := by
    intro h
    rw [h] at hlen
    exact absurd hlen (by decide)
  have hgt : 10 < s.length := hlen
  have hcond : (s = "0x" || decide (s.data.length ≤ 10)) = false := by
    simp [h0x]
    omega
  simp only [Option.getD, hcond, Bool.false_eq_true, if_false, hsel, if_pos]

/-- Witness for C9 amended at a selector followed by two bytes. -/
theorem determine_type_erc20_witness :
    determine_transaction_type [("data", .s "0xa9059cbb0000")] obj0
      = .ok "erc20_transfer" :=
  determine_type_erc20 [("data", .s "0xa9059cbb0000")] obj0 "0xa9059cbb0000"
    rfl (by decide) rfl

/-! ### Claim C10 -/

theorem except_bind_ok {α β : Type} {ea : Except String α}
    {g : α → Except String β} {out : β} (h : ea.bind g = .ok out) :
    ∃ a0, ea = .ok a0 ∧ g a0 = .ok out := by
  rcases ea with e | a0
  · exact absurd h (by simp [Except.bind])
  · refine ⟨a0, rfl, ?_⟩
    simpa [Except.bind] using h

theorem validate_simulation_failed (sim : SimDict) (objective : Objective)
    (hsucc : assoc_find sim "success" = none
      ∨ assoc_find sim "success" = some (.b false)) :
    validate_simulation sim objective = .ok [sim_fail_result sim] := by
  unfold validate_simulation
  have hs : ((assoc_find sim "success").map sim_truthy).getD false = false := by
    rcases hsucc with h | h <;> simp [h, sim_truthy]
  rw [hs]
  rfl

/-- C10.  An empty dict as `simulation_result` is falsy and triggers no
simulation checks (it behaves exactly like `None`); a non-empty
`simulation_result` whose `success` key is absent or `False` produces, on
any evaluation that returns, a critical `correctness` failure whose
message contains "Transaction simulation failed" (with "Unknown error"
when no error string is given), and the transaction is invalid. -/
theorem simulation_gate (transaction : TxDict) (objective : Objective) :
    (evaluate_transaction transaction objective (some [])
      = evaluate_transaction transaction objective none)
    ∧ ∀ (sim : SimDict), sim ≠ [] →
        (assoc_find sim "success" = none
          ∨ assoc_find sim "success" = some (.b false)) →
        ∀ v rs, evaluate_transaction transaction objective (some sim)
            = .ok (v, rs) →
          v = false
          ∧ ∃ r ∈ rs, r.passed = false ∧ r.severity = "critical"
              ∧ r.category = "correctness"
              ∧ py_in "Transaction simulation failed" r.message = true
              ∧ (assoc_find sim "error" = none →
                  r.message = "Transaction simulation failed: Unknown error") := by
  constructor
  · rfl
  · intro sim hne hsucc v rs hok
    have hemp : sim.isEmpty = false := by
      cases sim with
      | nil => exact absurd rfl hne
      | cons a t => rfl
    have hsim := validate_simulation_failed sim objective hsucc
    unfold evaluate_transaction at hok
    obtain ⟨rs0, hres, hpure⟩ := except_bind_ok hok
    have hok2 : (is_valid_of rs0, rs0) = (v, rs) := by
      simpa [pure, Except.pure] using hpure
    have hv : is_valid_of rs0 = v := congrArg Prod.fst hok2
    have hrs : rs0 = rs := congrArg Prod.snd hok2
    unfold evaluate_transaction_results at hres
    obtain ⟨tx_type, h1, hres⟩ := except_bind_ok hres
    obtain ⟨gas_results, h2, hres⟩ := except_bind_ok hres
    obtain ⟨value, h3, hres⟩ := except_bind_ok hres
    obtain ⟨objective_results, h4, hres⟩ := except_bind_ok hres
    obtain ⟨sim_results, h5, hres⟩ := except_bind_ok hres
    obtain ⟨security_results, h6, hres⟩ := except_bind_ok hres
    have hres2 : gas_results ++ (if 0 < value then [validate_value value true]
        else []) ++ objective_results ++ sim_results ++ security_results
        = rs0 := by
      simpa [pure, Except.pure] using hres
    simp only [sim_step, hemp, Bool.false_eq_true, if_false, hsim,
      Except.ok.injEq] at h5
    subst h5
    subst hres2
    subst hrs
    constructor
    · rw [← hv]
      exact is_valid_of_false _ (sim_fail_result sim)
        (by simp [List.mem_append]) rfl rfl
    · refine ⟨sim_fail_result sim, by simp [List.mem_append],
        rfl, rfl, rfl, ?_, ?_⟩
      · apply py_in_of_sw
        rw [show (sim_fail_result sim).message
            = "Transaction simulation failed: " ++ sim_error_msg sim
            from rfl]
        rw [str_data_append]
        exact sw_trans_append _ _ _ (by decide)
      · intro he
        show "Transaction simulation failed: " ++ sim_error_msg sim
          = "Transaction simulation failed: Unknown error"
        rw [show sim_error_msg sim = "Unknown error" by
          unfold sim_error_msg
          rw [he]]
        rfl

/-- Witness for C10 at `{success: False}` on the empty transaction. -/
theorem simulation_gate_witness :
    false = false
    ∧ ∃ r ∈ [(⟨false, "correctness",
          "Transaction simulation failed: Unknown error", "critical",
          some "Review transaction parameters and ensure sufficient balances"⟩
        : ValidationResult)],
        r.passed = false ∧ r.severity = "critical"
        ∧ r.category = "correctness"
        ∧ py_in "Transaction simulation failed" r.message = true
        ∧ (assoc_find [("success", SimVal.b false)] "error" = none →
            r.message = "Transaction simulation failed: Unknown error") :=
  (simulation_gate [] obj0).2 [("success", SimVal.b false)] (by simp)
    (Or.inr rfl) false _ rfl

/-! ### Claim C6 -/

theorem assoc_find_set {α : Type} (l : List (String × α)) (k k' : String)
    (v : α) :
    assoc_find (assoc_set l k v) k'
      = if k' = k then some v else assoc_find l k' := by
  induction l with
  | nil =>
    by_cases h : k' = k
    · subst h
      simp [assoc_set, assoc_find]
    · have h2 : ¬ k = k' := fun hh => h hh.symm
      simp [assoc_set, assoc_find, h, h2]
  | cons p rest ih =>
    obtain ⟨k0, w⟩ := p
    by_cases h0 : k0 = k
    · subst h0
      by_cases h : k' = k0
      · subst h
        simp [assoc_set, assoc_find]
      · have h2 : ¬ k0 = k' := fun hh => h hh.symm
        simp [assoc_set, assoc_find, h, h2]
    · by_cases h : k' = k0
      · subst h
        simp [assoc_set, assoc_find, h0]
      · have h2 : ¬ k0 = k' := fun hh => h hh.symm
        simp [assoc_set, assoc_find, h0, h2, ih]

theorem coordinator_lookup (f : String → List ValidationResult) :
    ∀ (names : List String) (acc : List (String × List ValidationResult))
      (k : String),
      assoc_find (names.foldl (fun a n => assoc_set a n (f n)) acc) k
        = if k ∈ names then some (f k) else assoc_find acc k := by
  intro names
  induction names with
  | nil => simp
  | cons n rest ih =>
    intro acc k
    simp only [List.foldl]
    rw [ih]
    by_cases hk : k ∈ rest
    · simp [hk, List.mem_cons]
    · by_cases hkn : k = n
      · subst hkn
        simp [hk, assoc_find_set]
      · simp [hk, hkn, assoc_find_set, List.mem_cons]

/-- C6.  If among the selected subagents exactly one raises while all the
others return, the coordinator's mapping binds the raising agent to the
single synthetic error result and every other selected agent to exactly
the list it returns in isolation; no exception reaches the caller. -/
theorem coordinator_isolates_failure (transaction : TxDict)
    (objective : Objective) (ctx : Ctx) (agents : Option (List String))
    (a e : String)
    (ha : a ∈ selected_agents agents)
    (herr : run_agent a transaction objective ctx = .error e)
    (hrest : ∀ b ∈ selected_agents agents, b ≠ a →
      ∃ rsb, run_agent b transaction objective ctx = .ok rsb) :
    assoc_find (analyze_transaction transaction objective (some ctx) agents) a
      = some [⟨false, "error", "Subagent " ++ a ++ " failed: " ++ e,
          "warning", none⟩]
    ∧ ∀ b rsb, b ∈ selected_agents agents → b ≠ a →
        run_agent b transaction objective ctx = .ok rsb →
        assoc_find (analyze_transaction transaction objective (some ctx) agents)
            b = some rsb := by
  unfold analyze_transaction
  constructor
  · rw [coordinator_lookup
      (fun n => wrap_agent n transaction objective ((some ctx).getD ctx0))]
    simp only [ha, if_true, Option.getD]
    unfold wrap_agent
    rw [herr]
  · intro b rsb hb hne hok
    rw [coordinator_lookup
      (fun n => wrap_agent n transaction objective ((some ctx).getD ctx0))]
    simp only [hb, if_true, Option.getD]
    unfold wrap_agent
    rw [hok]

/-- Witness for C6: data that is long but not valid hex makes
`bytes.fromhex` raise inside the gas analyzer only. -/
theorem coordinator_isolates_failure_witness :
    assoc_find (analyze_transaction [("data", TxVal.s "0xZZZZZZZZZZZZ")] obj0
        (some ctx0) none) "gas"
      = some [⟨false, "error",
          "Subagent gas failed: ValueError: non-hexadecimal number found in fromhex() arg",
          "warning", none⟩]
    ∧ assoc_find (analyze_transaction [("data", TxVal.s "0xZZZZZZZZZZZZ")] obj0
        (some ctx0) none) "security"
      = some [] := by
  have h := coordinator_isolates_failure [("data", TxVal.s "0xZZZZZZZZZZZZ")]
    obj0 ctx0 none "gas"
    "ValueError: non-hexadecimal number found in fromhex() arg"
    (by simp [selected_agents, subagent_names])
    rfl
    (by
      intro b hb hne
      simp [selected_agents, subagent_names] at hb
      rcases hb with rfl | rfl | rfl | rfl
      · exact absurd rfl hne
      · exact ⟨[], rfl⟩
      · exact ⟨[], rfl⟩
      · exact ⟨[], rfl⟩)
  refine ⟨h.1, ?_⟩
  exact h.2 "security" [] (by simp [selected_agents, subagent_names])
    (by decide) rfl

/-! ### Claim C7 -/

theorem get?_append_left {α : Type} :
    ∀ (l₁ l₂ : List α) (n : Nat), n < l₁.length →
      (l₁ ++ l₂).get? n = l₁.get? n := by
  intro l₁
  induction l₁ with
  | nil =>
    intro l₂ n h
    simp at h
  | cons a t ih =>
    intro l₂ n h
    cases n with
    | zero => rfl
    | succ m =>
      simp only [List.cons_append, List.get?]
      exact ih l₂ m (by simpa using h)

/-- C7.  `optimize_transaction` never writes through the caller's
reference: the input slot is unchanged (whether or not a strategy raised),
and on normal return the returned transaction is the freshly allocated
copy, a different object from the input. -/
theorem optimize_transaction_copy_on_write (h : Heap) (r : Nat)
    (evaluation_results : List EvalResultD) (objective : Objective)
    (hr : r < h.length) :
    (optimize_transaction h r evaluation_results objective).1.get? r
      = h.get? r
    ∧ ∀ r' applied,
        (optimize_transaction h r evaluation_results objective).2
          = .ok (r', applied) →
        r' = h.length ∧ r' ≠ r := by
  simp only [optimize_transaction]
  rcases hrs : run_strategies (heap_get h r) (group_issues evaluation_results)
      objective with ⟨txF, res⟩
  cases res with
  | ok applied =>
    refine ⟨get?_append_left _ _ _ hr, ?_⟩
    intro r' app hok
    simp only [Except.ok.injEq, Prod.mk.injEq] at hok
    refine ⟨hok.1.symm, ?_⟩
    rw [← hok.1]
    omega
  | error e =>
    refine ⟨get?_append_left _ _ _ hr, ?_⟩
    intro r' app hok
    simp at hok

/-- Witness for C7 on a one-slot heap. -/
theorem optimize_transaction_copy_on_write_witness :
    (optimize_transaction [[("gas", TxVal.i 100)]] 0 [] obj0).1.get? 0
      = ([[("gas", TxVal.i 100)]] : Heap).get? 0
    ∧ (0 : Nat) < 1 :=
  ⟨(optimize_transaction_copy_on_write [[("gas", TxVal.i 100)]] 0 [] obj0
      (by decide)).1,
   by decide⟩

/-! ### Claim C8 -/

theorem foldl_group_skip :
    ∀ (rs : List EvalResultD) (acc : List (String × List EvalResultD)),
      rs.foldl (fun acc r =>
          if r.passed then acc else append_group acc r.category r) acc
        = (rs.filter (fun x => !x.passed)).foldl
            (fun acc r => append_group acc r.category r) acc := by
  intro rs
  induction rs with
  | nil => intro acc; rfl
  | cons r t ih =>
    intro acc
    by_cases hp : r.passed <;>
      simp [List.foldl, List.filter_cons, hp, ih]

theorem group_issues_single (rs : List EvalResultD) (gr : EvalResultD)
    (hf : rs.filter (fun x => !x.passed) = [gr]) :
    group_issues rs = [(gr.category, [gr])] := by
  unfold group_issues
  rw [foldl_group_skip, hf]
  rfl

theorem dict_find_set_self (d : TxDict) (k : String) (v : TxVal) :
    dict_find (dict_set d k v) k = some v := by
  induction d with
  | nil => simp [dict_set, dict_find]
  | cons p rest ih =>
    obtain ⟨k0, w⟩ := p
    by_cases h0 : k0 = k
    · subst h0
      simp [dict_set, dict_find]
    · simp [dict_set, dict_find, h0, ih]

theorem dict_find_set_ne (d : TxDict) (k k' : String) (v : TxVal)
    (hne : k' ≠ k) :
    dict_find (dict_set d k v) k' = dict_find d k' := by
  induction d with
  | nil =>
    have h2 : ¬ k = k' := fun hh => hne hh.symm
    simp [dict_set, dict_find, h2]
  | cons p rest ih =>
    obtain ⟨k0, w⟩ := p
    by_cases h0 : k0 = k
    · subst h0
      have h2 : ¬ k0 = k' := fun hh => hne hh.symm
      simp [dict_set, dict_find, h2]
    · by_cases h : k0 = k'
      · subst h
        simp [dict_set, dict_find, h0]
      · simp [dict_set, dict_find, h0, h, ih]

theorem heap_get_append (h : Heap) (d : TxDict) :
    heap_get (h ++ [d]) h.length = d := by
  unfold heap_get
  induction h with
  | nil => rfl
  | cons a t ih => simp only [List.cons_append, List.length_cons, List.getD]
                   exact ih

theorem opt_calldata_self (d : String) (obj : Objective) :
    optimize_calldata d obj = d := by
  unfold optimize_calldata
  exact ite_self d

theorem optimize_gas_single (tx : TxDict) (obj : Objective)
    (gr : EvalResultD) (g : Int) (d : String)
    (hgas : dict_find tx "gas" = some (.i g))
    (hdata : dict_find tx "data" = some (.s d))
    (hmsg : py_in "exceeds threshold" gr.message = true) :
    optimize_gas_loop tx obj [gr]
      = .ok (dict_set tx "gas" (.i (Int.tdiv (3 * g) 4)),
        ["Reduced gas limit from " ++ toString g ++ " to " ++
          toString (Int.tdiv (3 * g) 4)]) := by
  have hmem_d : dict_mem tx "data" = true := by simp [dict_mem, hdata]
  have hmem_g : dict_mem tx "gas" = true := by simp [dict_mem, hgas]
  have hget_d : dict_get tx "data" (.s "") = .s d := by
    simp [dict_get, hdata]
  have hget_g : dict_get tx "gas" (.i 0) = .i g := by
    simp [dict_get, hgas]
  by_cases hlen : 10 < d.data.length <;>
    simp [optimize_gas_loop, hmsg, hmem_d, hmem_g, hget_d, hget_g, hlen,
      py_len, py_mul_3_4, py_str, opt_calldata_self, Bind.bind, Except.bind,
      pure, Except.pure]

/-- C8.  On evaluation results whose only failing entry is one gas-category
result containing "exceeds threshold", `optimize_transaction` returns the
fresh copy with `gas` shrunk to `int(0.75 * g)` = `(3*g)/4` (truncated),
`data` unchanged, and one applied-change string containing both the old
and the new gas value. -/
theorem optimize_gas_seventy_five (h : Heap) (r : Nat) (g : Int) (d : String)
    (rs : List EvalResultD) (gr : EvalResultD) (objective : Objective)
    (hr : r < h.length)
    (hgas : dict_find (heap_get h r) "gas" = some (.i g))
    (hdata : dict_find (heap_get h r) "data" = some (.s d))
    (hfail : rs.filter (fun x => !x.passed) = [gr])
    (hcat : gr.category = "gas")
    (hmsg : py_in "exceeds threshold" gr.message = true) :
    ∃ applied,
      (optimize_transaction h r rs objective).2 = .ok (h.length, applied)
      ∧ dict_find (heap_get (optimize_transaction h r rs objective).1
            h.length) "gas" = some (.i (Int.tdiv (3 * g) 4))
      ∧ dict_find (heap_get (optimize_transaction h r rs objective).1
            h.length) "data" = some (.s d)
      ∧ ∃ st ∈ applied, py_in (toString g) st = true
          ∧ py_in (toString (Int.tdiv (3 * g) 4)) st = true := by
  have hgrp : group_issues rs = [("gas", [gr])] := by
    rw [group_issues_single rs gr hfail, hcat]
  have hloop := optimize_gas_single (heap_get h r) objective gr g d hgas
    hdata hmsg
  have hrun : run_strategies (heap_get h r) (group_issues rs) objective
      = (dict_set (heap_get h r) "gas" (.i (Int.tdiv (3 * g) 4)),
        .ok ["Reduced gas limit from " ++ toString g ++ " to " ++
          toString (Int.tdiv (3 * g) 4)]) := by
    rw [hgrp]
    unfold run_strategies run_strategy
    rw [if_pos rfl, hloop]
    rfl
  simp only [optimize_transaction]
  rw [hrun]
  refine ⟨_, rfl, ?_, ?_, ?_⟩
  · rw [heap_get_append]
    exact dict_find_set_self _ _ _
  · rw [heap_get_append]
    rw [dict_find_set_ne _ _ _ _ (by decide)]
    exact hdata
  · refine ⟨_, List.mem_singleton_self _, ?_, ?_⟩
    · apply py_in_of_shape _ _ "Reduced gas limit from ".data
        ((" to " ++ toString (Int.tdiv (3 * g) 4)).data)
      simp [str_data_append, List.append_assoc]
    · apply py_in_of_shape _ _
        (("Reduced gas limit from " ++ toString g ++ " to ").data) []
      simp [str_data_append, List.append_assoc]

/-- Witness for C8 at gas 400000: the optimized gas is 300000 and the
applied string names both values. -/
theorem optimize_gas_seventy_five_witness :
    ∃ applied,
      (optimize_transaction [[("gas", TxVal.i 400000), ("data", TxVal.s "0x")]]
          0 [⟨false, "gas", "Gas limit 400000 exceeds threshold 21000 by >50%"⟩]
          obj0).2 = .ok (1, applied)
      ∧ dict_find (heap_get (optimize_transaction
            [[("gas", TxVal.i 400000), ("data", TxVal.s "0x")]] 0
            [⟨false, "gas", "Gas limit 400000 exceeds threshold 21000 by >50%"⟩]
            obj0).1 1) "gas" = some (.i 300000)
      ∧ dict_find (heap_get (optimize_transaction
            [[("gas", TxVal.i 400000), ("data", TxVal.s "0x")]] 0
            [⟨false, "gas", "Gas limit 400000 exceeds threshold 21000 by >50%"⟩]
            obj0).1 1) "data" = some (.s "0x")
      ∧ ∃ st ∈ applied, py_in (toString (400000 : Int)) st = true
          ∧ py_in (toString (Int.tdiv (3 * 400000) 4)) st = true :=
  optimize_gas_seventy_five
    [[("gas", TxVal.i 400000), ("data", TxVal.s "0x")]] 0 400000 "0x"
    [⟨false, "gas", "Gas limit 400000 exceeds threshold 21000 by >50%"⟩]
    ⟨false, "gas", "Gas limit 400000 exceeds threshold 21000 by >50%"⟩
    obj0 (by decide) rfl rfl rfl rfl (by decide)

end LARPy
